import Mathlib

/-!
Verification of the resource-availability probe
(`src/resource-availability/src/resource_availability.py`).

The probe resolves a hostname, issues HTTP(S) requests following redirects
manually under policy constraints (scheme boundary, redirect limit, timeout),
and classifies outcomes into result records consumed by a JUnit report writer.

The embedding below is a shallow one: the network, the system resolver and the
wall clock are oracles passed in as functions; everything else is translated
from the Python source.  Machine floats (elapsed seconds) are modelled as
exact rationals.
-/

/-! ## Python string helpers -/

/-- Models Python `str.startswith`: membership of `pre` as a prefix of `s`,
computed on the character lists. -/
def py_startswith (s pre : String) : Bool :=
  pre.toList.isPrefixOf s.toList

/-- Models Python `str(b)` for a boolean. -/
def pyStr (b : Bool) : String :=
  if b then "True" else "False"

/-- Models Python string interpolation of a `str`-or-`None` value. -/
def pyOptStr : Option String → String
  | some s => s
  | none => "None"

/-- Models Python string interpolation of an `int`-or-`None` value. -/
def pyOptNat : Option Nat → String
  | some n => toString n
  | none => "None"

/-- Zero-pads a natural number below 1000 to three digits. -/
def pad3 (n : Nat) : String :=
  (if n < 10 then "00" else if n < 100 then "0" else "") ++ toString n

/-- Models Python `f"{q:.3f}"` for a non-negative value: rounding the exact
rational to three decimal places (half up; Python rounds the nearest double
half to even, which agrees except at representation-dependent ties).  The
rounded integer `⌊q * 1000 + 1/2⌋` is computed on the numerator and
denominator directly as `⌊(2000 q.num + q.den) / (2 q.den)⌋`. -/
def format3abs (q : ℚ) : String :=
  let m : Nat := (Int.fdiv (2000 * q.num + (q.den : Int)) (2 * (q.den : Int))).toNat
  toString (m / 1000) ++ "." ++ pad3 (m % 1000)

/-- Models Python `f"{q:.3f}"`. -/
def format3 (q : ℚ) : String :=
  if q < 0 then "-" ++ format3abs (-q) else format3abs q

/-- Drops the characters of `bad` from both ends of `cs`
(Python `str.strip(chars)`). -/
def stripChars (cs bad : List Char) : List Char :=
  ((cs.dropWhile (bad.contains ·)).reverse.dropWhile (bad.contains ·)).reverse

/-- Models Python `s.strip("[]")`. -/
def pyStripBrackets (s : String) : String :=
  String.mk (stripChars s.toList ['[', ']'])

/-- Splits a character list at every comma (Python `str.split(",")`). -/
def splitCommaChars : List Char → List (List Char)
  | [] => [[]]
  | c :: rest =>
    match splitCommaChars rest with
    | [] => [[]]
    | h :: t => if c = ',' then [] :: h :: t else (c :: h) :: t

/-- Models Python `s.split(",")`. -/
def pySplitComma (s : String) : List String :=
  (splitCommaChars s.toList).map String.mk

/-- Models Python `s.strip()`: whitespace dropped from both ends. -/
def pyStripWs (s : String) : String :=
  String.mk
    (((s.toList.dropWhile Char.isWhitespace).reverse.dropWhile Char.isWhitespace).reverse)

/-- Models Python `int(s)` for the non-negative numerals this program uses;
other inputs raise `ValueError`, modelled as an `Except` error. -/
def pyInt (s : String) : Except String Nat :=
  let cs := (pyStripWs s).toList
  if cs ≠ [] ∧ cs.all Char.isDigit then
    Except.ok (cs.foldl (fun a c => a * 10 + (c.toNat - 48)) 0)
  else Except.error ("invalid literal for int() with base 10: " ++ s)

/-! ## URL helpers

These model the parts of Python's `urllib.parse` that the program exercises
(URLs of the shape `scheme://authority/path`).  `urllib` additionally
lowercases schemes while parsing; every URL this program builds already has a
lowercase scheme, so the normalisation is omitted. -/

/-- Splits a character list at the first occurrence of `"://"`, returning the
part before and the part after the separator. -/
def findSep : List Char → Option (List Char × List Char)
  | [] => none
  | c :: cs =>
    if c = ':' ∧ cs.take 2 = ['/', '/'] then some ([], cs.drop 2)
    else (findSep cs).map (fun p => (c :: p.1, p.2))

/-- Models `urllib.parse.urlparse(u).scheme` for URLs carrying an authority
component: the text before `"://"`, or `""` when there is none. -/
def urlScheme (u : String) : String :=
  match findSep u.toList with
  | some (pre, _) => String.mk pre
  | none => ""

/-- The `scheme://authority` part of a URL. -/
def schemeAuthority (u : String) : String :=
  match findSep u.toList with
  | some (pre, rest) =>
    String.mk pre ++ "://" ++
      String.mk (rest.takeWhile (fun c => c != '/' && c != '?' && c != '#'))
  | none => ""

/-- The path of a URL up to and including its last `/` (used as the base
directory when resolving a relative reference). -/
def basePathDir (u : String) : String :=
  match findSep u.toList with
  | some (_, rest) =>
    let path := (rest.dropWhile (· != '/')).takeWhile (fun c => c != '?' && c != '#')
    String.mk ((path.reverse.dropWhile (· != '/')).reverse)
  | none => ""

/-- Models `urllib.parse.urljoin(base, rel)` for the URL forms this program
exercises: an absolute reference wins, a scheme-relative reference inherits
the base scheme, a rooted path replaces the base path, and any other
reference replaces the last segment of the base path. -/
def urljoin (base rel : String) : String :=
  if rel = "" then base
  else if (findSep rel.toList).isSome then rel
  else if py_startswith rel "//" then urlScheme base ++ ":" ++ rel
  else if py_startswith rel "/" then schemeAuthority base ++ rel
  else
    let d := basePathDir base
    schemeAuthority base ++ (if d = "" then "/" else d) ++ rel

/-- Models `urllib.parse.urlparse(u).hostname`: the authority stripped of
userinfo and port, lowercased, or `none` when the URL has no authority. -/
def urlHostname (u : String) : Option String :=
  match findSep u.toList with
  | none => none
  | some (_, rest) =>
    let authority := rest.takeWhile (fun c => c != '/' && c != '?' && c != '#')
    let afterAt :=
      if authority.contains '@' then (authority.reverse.takeWhile (· != '@')).reverse
      else authority
    let host := afterAt.takeWhile (· != ':')
    if host = [] then none else some (String.mk (host.map Char.toLower))

/-- Models `urlparse(url)._replace(scheme=scheme).geturl()` for URLs carrying
an authority component. -/
def replaceScheme (url scheme : String) : String :=
  match findSep url.toList with
  | some (_, rest) => scheme ++ "://" ++ String.mk rest
  | none => scheme ++ ":" ++ url

/-! ## The redirect-following prober (`check_url`) -/

/-- The outcome of one `session.get` call, as seen by the loop body: a
response (status code, optional `Location` header, cumulative elapsed seconds
read from the wall clock right after the call), a `requests.exceptions.Timeout`,
or another `requests.exceptions.RequestException` carrying `str(e)`. -/
inductive HopResponse where
  | ok (status : Nat) (location : Option String) (elapsed : ℚ)
  | timeoutExc (elapsed : ℚ)
  | requestExc (msg : String) (elapsed : ℚ)
deriving DecidableEq

/-- Whether a hop outcome is a raised transport-level exception. -/
def isExc : HopResponse → Bool
  | .ok _ _ _ => false
  | .timeoutExc _ => true
  | .requestExc _ _ => true

/-- The tuple returned by `check_url`. -/
structure CheckResult where
  statusCode : Option Nat
  finalURL : String
  elapsedSeconds : ℚ
  errorMessage : Option String
  crossedSchemeBoundary : Bool
deriving DecidableEq

/-- Line 67 of the source: the per-hop `verify` argument,
`verify_ssl if current_url.startswith("https://") else True`. -/
def hop_verify (currentUrl : String) (verifySsl : Bool) : Bool :=
  if py_startswith currentUrl "https://" then verifySsl else true

/-- The body of `check_url`'s `while True` loop, from the Python source.  The
network is the oracle `net`, taking the index of the request in the run, the
requested URL and the `verify` argument passed to `session.get`.  The loop
variable `redirects_followed` is `k`; the guard `redirects_followed >=
max_redirects` is rendered as `fuel = 0` for the structurally decreasing
`fuel = maxRedirects - k`, which keeps the definition computing by `rfl`.
Besides the source's return tuple the function also returns the number of
requests issued and the last URL requested, for stating resource bounds. -/
def checkUrlFrom (net : Nat → String → Bool → HopResponse)
    (timeout maxRedirects : Nat) (verifySsl : Bool) (initialScheme : String) :
    Nat → Nat → String → CheckResult × Nat × String
  | fuel, k, currentUrl =>
    match net k currentUrl (hop_verify currentUrl verifySsl) with
    | .timeoutExc e =>
      (⟨none, currentUrl, e,
        some ("Request timed out after " ++ toString timeout ++ "s"), false⟩, 1, currentUrl)
    | .requestExc msg e =>
      (⟨none, currentUrl, e, some msg, false⟩, 1, currentUrl)
    | .ok st loc e =>
      if 200 ≤ st ∧ st < 300 then
        (⟨some st, currentUrl, e, none, false⟩, 1, currentUrl)
      else if 300 ≤ st ∧ st < 400 then
        if loc.getD "" = "" then
          (⟨some st, currentUrl, e,
            some ("Redirect response " ++ toString st ++ " had no Location header"),
            false⟩, 1, currentUrl)
        else
          let nextUrl := urljoin currentUrl (loc.getD "")
          if urlScheme nextUrl ≠ initialScheme then
            (⟨some st, nextUrl, e, none, true⟩, 1, currentUrl)
          else
            match fuel with
            | 0 =>
              (⟨some st, currentUrl, e,
                some ("Redirect limit reached (" ++ toString maxRedirects ++
                  "); last status " ++ toString st ++ " at " ++ currentUrl),
                false⟩, 1, currentUrl)
            | fuel' + 1 =>
              let r := checkUrlFrom net timeout maxRedirects verifySsl initialScheme
                fuel' (k + 1) nextUrl
              (r.1, r.2.1 + 1, r.2.2)
      else
        (⟨some st, currentUrl, e,
          some ("Unexpected status code " ++ toString st), false⟩, 1, currentUrl)

/-- Embeds `check_url(url, timeout, max_redirects, verify_ssl)` from the source,
against the network oracle `net`: the manual redirect loop started with
`redirects_followed = 0` at `url`, the boundary reference being the initial
URL's scheme. -/
def check_url (net : Nat → String → Bool → HopResponse) (url : String)
    (timeout maxRedirects : Nat) (verifySsl : Bool) : CheckResult :=
  (checkUrlFrom net timeout maxRedirects verifySsl (urlScheme url)
    maxRedirects 0 url).1

example :
    check_url (fun _ _ _ => .ok 200 none 1) "https://example.com" 30 0 true =
      ⟨some 200, "https://example.com", 1, none, false⟩ := by
  decide

example :
    check_url
      (fun k _ _ => if k = 0 then .ok 301 (some "http://example.com/") 1 else .ok 200 none 2)
      "https://example.com" 30 0 true =
      ⟨some 301, "http://example.com/", 1, none, true⟩ := by
  decide

/-! ## DNS resolution (`check_dns`) -/

/-- Embeds `check_dns(hostname)` from the source: `None` hostnames fail without a
network call; otherwise the system resolver — the oracle `dns`, returning
either `str(gaierror)` or the resolved IP — is consulted once.  Returns the
`(ip, error)` pair. -/
def check_dns (dns : String → Except String String) :
    Option String → Option String × Option String
  | none => (none, some "Could not extract hostname from URL")
  | some h =>
    match dns h with
    | .error e => (none, some e)
    | .ok ip => (some ip, none)

/-! ## Result records and the orchestrator -/

/-- The result dictionary assembled for each check, mirroring the keys used
throughout the source.  Property values are `str`-or-`None`. -/
structure TestResult where
  case_name : String
  duration : ℚ
  error : Option String
  failure_message : Option String
  failure_text : Option String
  properties : List (String × Option String)
  skipped : Bool
  skipped_message : String
  stdout : String
  stderr : String
deriving DecidableEq

/-- Embeds `skipped_test(case_name, reason)` from the source. -/
def skipped_test (case_name reason : String) : TestResult :=
  { case_name := case_name
    duration := 0
    error := none
    failure_message := none
    failure_text := none
    properties := []
    skipped := true
    skipped_message := reason
    stdout := ""
    stderr := "" }

/-- Embeds `run_dns_test(url)` from the source, against the resolver oracle `dns`;
`dur` is the wall-clock duration measured around the check. -/
def run_dns_test (dns : String → Except String String) (dur : ℚ)
    (url : String) : TestResult :=
  let hostname := urlHostname url
  let props : List (String × Option String) := [("url", some url), ("hostname", hostname)]
  let res := check_dns dns hostname
  let out1 := "Resolving hostname: " ++ pyOptStr hostname ++ "\n"
  if (res.1.getD "") ≠ "" then
    { case_name := "dns_resolution[" ++ url ++ "]"
      duration := dur
      error := none
      failure_message := none
      failure_text := none
      properties := props
      skipped := false
      skipped_message := ""
      stdout := out1 ++ "resolved_ip: " ++ res.1.getD "" ++ "\n"
      stderr := "" }
  else
    { case_name := "dns_resolution[" ++ url ++ "]"
      duration := dur
      error := none
      failure_message := some ("DNS resolution failed for " ++ pyOptStr hostname)
      failure_text := res.2
      properties := props
      skipped := false
      skipped_message := ""
      stdout := out1
      stderr := "DNS resolution failed: " ++ pyOptStr res.2 ++ "\n" }

/-- Embeds `run_availability_test(url, scheme, timeout, max_redirects,
verify_ssl)` from the source: rewrites the URL's scheme, runs the prober, and classifies
its result into the result record, accumulating the captured stdout/stderr
narration. -/
def run_availability_test (net : Nat → String → Bool → HopResponse)
    (url scheme : String) (timeout maxRedirects : Nat) (verifySsl : Bool) :
    TestResult :=
  let target_url := replaceScheme url scheme
  let effective_verify_ssl := if scheme = "https" then verifySsl else true
  let props : List (String × Option String) :=
    [("verify_ssl", some (pyStr effective_verify_ssl))]
  let caseName := scheme ++ "_availability[" ++ url ++ "]"
  let r := check_url net target_url timeout maxRedirects verifySsl
  let out1 := "response_time_s: " ++ format3 r.elapsedSeconds ++ "\n"
  let out2 :=
    match r.statusCode with
    | some st => "status_code: " ++ toString st ++ "\n"
    | none => ""
  if r.crossedSchemeBoundary then
    let nextScheme := urlScheme r.finalURL
    { case_name := caseName
      duration := r.elapsedSeconds
      error := none
      failure_message := none
      failure_text := none
      properties := props
      skipped := false
      skipped_message := ""
      stdout := out1 ++ out2 ++ "redirects_to: " ++ r.finalURL ++ "\n" ++
        "OK: " ++ scheme.toUpper ++ " endpoint reachable (redirects to " ++
        nextScheme.toUpper ++ ")\n"
      stderr := "" }
  else
    let out3 :=
      if r.finalURL ≠ target_url then "final_url: " ++ r.finalURL ++ "\n" else ""
    let hdr := "Checking " ++ scheme.toUpper ++ " availability for: " ++ target_url ++
      "\n" ++ "Timeout: " ++ toString timeout ++ "s, Max redirects: " ++
      toString maxRedirects ++ ", Verify SSL: " ++ pyStr effective_verify_ssl ++ "\n"
    if (timeout : ℚ) ≤ r.elapsedSeconds then
      let msg := "Response time " ++ format3 r.elapsedSeconds ++
        "s exceeded timeout of " ++ toString timeout ++ "s"
      { case_name := caseName
        duration := r.elapsedSeconds
        error := some msg
        failure_message := none
        failure_text := none
        properties := props
        skipped := false
        skipped_message := ""
        stdout := out1 ++ out2 ++ out3
        stderr := hdr ++ msg ++ "\n" }
    else if (r.errorMessage.getD "") ≠ "" then
      { case_name := caseName
        duration := r.elapsedSeconds
        error := none
        failure_message := some (scheme.toUpper ++ " availability check failed")
        failure_text := some (r.errorMessage.getD "")
        properties := props
        skipped := false
        skipped_message := ""
        stdout := out1 ++ out2 ++ out3
        stderr := hdr ++ "Availability check failed: " ++ r.errorMessage.getD "" ++ "\n" }
    else
      { case_name := caseName
        duration := r.elapsedSeconds
        error := none
        failure_message := none
        failure_text := none
        properties := props
        skipped := false
        skipped_message := ""
        stdout := out1 ++ out2 ++ out3 ++ "OK: " ++ scheme.toUpper ++
          " available, status " ++ pyOptNat r.statusCode ++ " in " ++
          format3 r.elapsedSeconds ++ "s\n"
        stderr := "" }

/-- The parsed configuration dictionary. -/
structure Config where
  urls : List String
  max_redirects : Nat
  timeout : Nat
  check_http : Bool
  check_https : Bool
  verify_ssl : Bool
deriving DecidableEq

/-- Embeds `run_tests_for_url(url, config)` from the source: DNS first, then — when
enabled — the HTTP and HTTPS availability checks, each replaced by a skipped
record when the DNS check failed (Python tests the truthiness of
`failure_message or error`). -/
def run_tests_for_url (dns : String → Except String String) (dnsDur : ℚ)
    (net : Nat → String → Bool → HopResponse) (url : String) (config : Config) :
    List TestResult :=
  let dnsResult := run_dns_test dns dnsDur url
  let dnsFailed :=
    (dnsResult.failure_message.getD "") ≠ "" ∨ (dnsResult.error.getD "") ≠ ""
  [dnsResult] ++
    (if config.check_http then
      [if dnsFailed then
        skipped_test ("http_availability[" ++ url ++ "]") "Skipped due to DNS failure"
      else
        run_availability_test net url "http" config.timeout config.max_redirects
          config.verify_ssl]
    else []) ++
    (if config.check_https then
      [if dnsFailed then
        skipped_test ("https_availability[" ++ url ++ "]") "Skipped due to DNS failure"
      else
        run_availability_test net url "https" config.timeout config.max_redirects
          config.verify_ssl]
    else [])

/-- Embeds `parse_config()` from the source, against the environment oracle `env`.
`os.environ.get("TEST_URLS")` has no default, so an absent variable makes
`raw_urls.strip("[]")` raise `AttributeError`, modelled as the `Except`
error; the remaining keys carry defaults. -/
def parse_config (env : String → Option String) : Except String Config := do
  match env "TEST_URLS" with
  | none =>
    Except.error "AttributeError: NoneType object has no attribute strip"
  | some raw =>
    let urls :=
      ((pySplitComma (pyStripBrackets raw)).map pyStripWs).filter (fun u => u ≠ "")
    let maxRedirects ← pyInt ((env "TEST_MAX-REDIRECTS").getD "0")
    let timeout ← pyInt ((env "TEST_TIMEOUT").getD "30")
    pure
      { urls := urls
        max_redirects := maxRedirects
        timeout := timeout
        check_http := ((env "TEST_CHECK-HTTP-AVAILABILITY").getD "false").toLower = "true"
        check_https := ((env "TEST_CHECK-HTTPS-AVAILABILITY").getD "true").toLower = "true"
        verify_ssl := ((env "TEST_VERIFY-SSL").getD "true").toLower = "true" }

/-- The `__main__` block of the source, up to the report writing: parse the
configuration, short-circuit to a single skipped record when no URLs are
configured, otherwise run the checks for every URL in order. -/
def main_results (env : String → Option String)
    (dns : String → Except String String) (dnsDur : ℚ)
    (net : Nat → String → Bool → HopResponse) : Except String (List TestResult) := do
  let config ← parse_config env
  if config.urls = [] then
    pure [skipped_test "resource_availability" "No URL(s) configured"]
  else
    pure (config.urls.map (fun u => run_tests_for_url dns dnsDur net u config)).flatten

/-! ## The JUnit result mapping (`create_junit_report`, lines 279-289) -/

/-- The result element attached to a test case by `create_junit_report`. -/
inductive CaseResult where
  | passed
  | failureCase (message : String) (text : Option String)
  | errorCase (message : String) (text : String)
  | skippedCase (message : String)
deriving DecidableEq

/-- Lines 279-289 of the source: how `create_junit_report` turns one result
record into the test case's result element — `Skipped` wins, then a non-`None`
`error` becomes an `Error` with message `"Unexpected error"` and text
`str(error)`, then a truthy `failure_message` becomes a `Failure`, else the
case passes. -/
def junit_case_result (r : TestResult) : CaseResult :=
  if r.skipped then .skippedCase r.skipped_message
  else
    match r.error with
    | some e => .errorCase "Unexpected error" e
    | none =>
      if (r.failure_message.getD "") ≠ "" then
        .failureCase (r.failure_message.getD "") r.failure_text
      else .passed

example :
    run_dns_test (fun _ => .ok "1.2.3.4") 1 "https://example.com" =
      { case_name := "dns_resolution[https://example.com]"
        duration := 1
        error := none
        failure_message := none
        failure_text := none
        properties := [("url", some "https://example.com"), ("hostname", some "example.com")]
        skipped := false
        skipped_message := ""
        stdout := "Resolving hostname: example.com\nresolved_ip: 1.2.3.4\n"
        stderr := "" } := by
  decide

/-! ## Helper lemmas -/

/-- A string with a nonempty left part of an append is nonempty. -/
lemma append_ne_empty_left (s t : String) (h : 0 < s.length) : s ++ t ≠ "" := by
  intro hc
  have hl := congrArg String.length hc
  rw [String.length_append] at hl
  simp only [String.length_empty] at hl
  omega

/-- A string with a nonempty right part of an append is nonempty. -/
lemma append_ne_empty_right (s t : String) (h : 0 < t.length) : s ++ t ≠ "" := by
  intro hc
  have hl := congrArg String.length hc
  rw [String.length_append] at hl
  simp only [String.length_empty] at hl
  omega

/-- One step of the redirect loop on a 2xx response: return success with the
current URL. -/
lemma checkUrlFrom_2xx {net : Nat → String → Bool → HopResponse}
    {t m : Nat} {vs : Bool} {s : String} {fuel k : Nat} {url : String}
    {st : Nat} {loc : Option String} {e : ℚ}
    (hnet : net k url (hop_verify url vs) = .ok st loc e)
    (h1 : 200 ≤ st) (h2 : st < 300) :
    checkUrlFrom net t m vs s fuel k url = (⟨some st, url, e, none, false⟩, 1, url) := by
  rw [checkUrlFrom, hnet]
  simp only [if_pos (show 200 ≤ st ∧ st < 300 from ⟨h1, h2⟩)]

/-- One step of the redirect loop on a redirect whose resolved `Location`
leaves the initial scheme: stop and report the boundary. -/
lemma checkUrlFrom_cross {net : Nat → String → Bool → HopResponse}
    {t m : Nat} {vs : Bool} {s : String} {fuel k : Nat} {url : String}
    {st : Nat} {loc : String} {e : ℚ}
    (hnet : net k url (hop_verify url vs) = .ok st (some loc) e)
    (h3 : 300 ≤ st) (h4 : st < 400) (hl : loc ≠ "")
    (hs : urlScheme (urljoin url loc) ≠ s) :
    checkUrlFrom net t m vs s fuel k url =
      (⟨some st, urljoin url loc, e, none, true⟩, 1, url) := by
  rw [checkUrlFrom, hnet]
  simp only [if_neg (show ¬(200 ≤ st ∧ st < 300) by omega),
    if_pos (show 300 ≤ st ∧ st < 400 from ⟨h3, h4⟩), Option.getD_some,
    if_neg hl, if_pos hs]

/-- One step of the redirect loop on a same-scheme redirect with the
redirect budget exhausted: return the limit error at the current URL. -/
lemma checkUrlFrom_limit {net : Nat → String → Bool → HopResponse}
    {t m : Nat} {vs : Bool} {s : String} {k : Nat} {url : String}
    {st : Nat} {loc : String} {e : ℚ}
    (hnet : net k url (hop_verify url vs) = .ok st (some loc) e)
    (h3 : 300 ≤ st) (h4 : st < 400) (hl : loc ≠ "")
    (hs : urlScheme (urljoin url loc) = s) :
    checkUrlFrom net t m vs s 0 k url =
      (⟨some st, url, e,
        some ("Redirect limit reached (" ++ toString m ++ "); last status " ++
          toString st ++ " at " ++ url), false⟩, 1, url) := by
  rw [checkUrlFrom, hnet]
  simp only [if_neg (show ¬(200 ≤ st ∧ st < 300) by omega),
    if_pos (show 300 ≤ st ∧ st < 400 from ⟨h3, h4⟩), Option.getD_some,
    if_neg hl, if_neg (show ¬urlScheme (urljoin url loc) ≠ s from not_not_intro hs)]

/-- One step of the redirect loop on a same-scheme redirect with budget left:
advance to the resolved URL. -/
lemma checkUrlFrom_follow {net : Nat → String → Bool → HopResponse}
    {t m : Nat} {vs : Bool} {s : String} {fuel k : Nat} {url : String}
    {st : Nat} {loc : String} {e : ℚ}
    (hnet : net k url (hop_verify url vs) = .ok st (some loc) e)
    (h3 : 300 ≤ st) (h4 : st < 400) (hl : loc ≠ "")
    (hs : urlScheme (urljoin url loc) = s) :
    checkUrlFrom net t m vs s (fuel + 1) k url =
      ((checkUrlFrom net t m vs s fuel (k + 1) (urljoin url loc)).1,
       (checkUrlFrom net t m vs s fuel (k + 1) (urljoin url loc)).2.1 + 1,
       (checkUrlFrom net t m vs s fuel (k + 1) (urljoin url loc)).2.2) := by
  rw [checkUrlFrom, hnet]
  simp only [if_neg (show ¬(200 ≤ st ∧ st < 300) by omega),
    if_pos (show 300 ≤ st ∧ st < 400 from ⟨h3, h4⟩), Option.getD_some,
    if_neg hl, if_neg (show ¬urlScheme (urljoin url loc) ≠ s from not_not_intro hs)]

/-- Running the loop from hop `j` of a same-scheme redirect chain whose hop
`k` is the first 2xx response reaches that response, provided enough redirect
budget remains. -/
lemma checkUrlFrom_chain_success {net : Nat → String → Bool → HopResponse}
    {t m : Nat} {vs : Bool} {initS : String} {urls : Nat → String}
    {sts : Nat → Nat} {locs : Nat → String} {els : Nat → ℚ} {k : Nat}
    {stF : Nat} {locF : Option String} {eF : ℚ}
    (hhop : ∀ i, i < k → net i (urls i) (hop_verify (urls i) vs) =
      .ok (sts i) (some (locs i)) (els i))
    (hst : ∀ i, i < k → 300 ≤ sts i ∧ sts i < 400)
    (hloc : ∀ i, i < k → locs i ≠ "")
    (hjoin : ∀ i, i < k → urljoin (urls i) (locs i) = urls (i + 1))
    (hscheme : ∀ i, i < k → urlScheme (urls (i + 1)) = initS)
    (hfin : net k (urls k) (hop_verify (urls k) vs) = .ok stF locF eF)
    (h2a : 200 ≤ stF) (h2b : stF < 300) :
    ∀ (d j fuel : Nat), k = j + d → d ≤ fuel →
      checkUrlFrom net t m vs initS fuel j (urls j) =
        (⟨some stF, urls k, eF, none, false⟩, d + 1, urls k) := by
  intro d
  induction d with
  | zero =>
    intro j fuel hk _
    have hj : j = k := by omega
    subst hj
    exact checkUrlFrom_2xx hfin h2a h2b
  | succ n ih =>
    intro j fuel hk hfuel
    have hj : j < k := by omega
    obtain ⟨fuel', rfl⟩ : ∃ f, fuel = f + 1 := ⟨fuel - 1, by omega⟩
    rw [checkUrlFrom_follow (hhop j hj) (hst j hj).1 (hst j hj).2 (hloc j hj)
      (by rw [hjoin j hj]; exact hscheme j hj)]
    rw [hjoin j hj]
    rw [ih (j + 1) fuel' (by omega) (by omega)]

/-- Running the loop from hop `j` of a same-scheme redirect chain with the
budget exhausted exactly at hop `k`, where another same-scheme redirect
arrives, ends in the redirect-limit error at the URL of hop `k`. -/
lemma checkUrlFrom_chain_limit {net : Nat → String → Bool → HopResponse}
    {t m : Nat} {vs : Bool} {initS : String} {urls : Nat → String}
    {sts : Nat → Nat} {locs : Nat → String} {els : Nat → ℚ} {k : Nat}
    {stF : Nat} {locF : String} {eF : ℚ}
    (hhop : ∀ i, i < k → net i (urls i) (hop_verify (urls i) vs) =
      .ok (sts i) (some (locs i)) (els i))
    (hst : ∀ i, i < k → 300 ≤ sts i ∧ sts i < 400)
    (hloc : ∀ i, i < k → locs i ≠ "")
    (hjoin : ∀ i, i < k → urljoin (urls i) (locs i) = urls (i + 1))
    (hscheme : ∀ i, i < k → urlScheme (urls (i + 1)) = initS)
    (hfin : net k (urls k) (hop_verify (urls k) vs) = .ok stF (some locF) eF)
    (h3 : 300 ≤ stF) (h4 : stF < 400) (hlF : locF ≠ "")
    (hsF : urlScheme (urljoin (urls k) locF) = initS) :
    ∀ (d j : Nat), k = j + d →
      checkUrlFrom net t m vs initS d j (urls j) =
        (⟨some stF, urls k, eF,
          some ("Redirect limit reached (" ++ toString m ++ "); last status " ++
            toString stF ++ " at " ++ urls k), false⟩, d + 1, urls k) := by
  intro d
  induction d with
  | zero =>
    intro j hk
    have hj : j = k := by omega
    subst hj
    exact checkUrlFrom_limit hfin h3 h4 hlF hsF
  | succ n ih =>
    intro j hk
    have hj : j < k := by omega
    rw [checkUrlFrom_follow (hhop j hj) (hst j hj).1 (hst j hj).2 (hloc j hj)
      (by rw [hjoin j hj]; exact hscheme j hj)]
    rw [hjoin j hj]
    rw [ih (j + 1) (by omega)]

/-- The loop issues at least one and at most `fuel + 1` requests. -/
lemma checkUrlFrom_count (net : Nat → String → Bool → HopResponse)
    (t m : Nat) (vs : Bool) (s : String) :
    ∀ (fuel k : Nat) (url : String),
      1 ≤ (checkUrlFrom net t m vs s fuel k url).2.1 ∧
        (checkUrlFrom net t m vs s fuel k url).2.1 ≤ fuel + 1 := by
  intro fuel
  induction fuel with
  | zero =>
    intro k url
    cases hnet : net k url (hop_verify url vs) with
    | timeoutExc e =>
      rw [checkUrlFrom, hnet]
      exact ⟨Nat.le_refl 1, Nat.le_add_left 1 _⟩
    | requestExc msg e =>
      rw [checkUrlFrom, hnet]
      exact ⟨Nat.le_refl 1, Nat.le_add_left 1 _⟩
    | ok st loc e =>
      rw [checkUrlFrom, hnet]
      by_cases h1 : 200 ≤ st ∧ st < 300
      · simp only [if_pos h1]
        exact ⟨Nat.le_refl 1, Nat.le_add_left 1 _⟩
      · by_cases h2 : 300 ≤ st ∧ st < 400
        · by_cases h3 : loc.getD "" = ""
          · simp only [if_neg h1, if_pos h2, if_pos h3]
            exact ⟨Nat.le_refl 1, Nat.le_add_left 1 _⟩
          · by_cases h4 : urlScheme (urljoin url (loc.getD "")) ≠ s
            · simp only [if_neg h1, if_pos h2, if_neg h3, if_pos h4]
              exact ⟨Nat.le_refl 1, Nat.le_add_left 1 _⟩
            · simp only [if_neg h1, if_pos h2, if_neg h3, if_neg h4]
              exact ⟨Nat.le_refl 1, Nat.le_add_left 1 _⟩
        · simp only [if_neg h1, if_neg h2]
          exact ⟨Nat.le_refl 1, Nat.le_add_left 1 _⟩
  | succ n ih =>
    intro k url
    cases hnet : net k url (hop_verify url vs) with
    | timeoutExc e =>
      rw [checkUrlFrom, hnet]
      exact ⟨Nat.le_refl 1, Nat.le_add_left 1 _⟩
    | requestExc msg e =>
      rw [checkUrlFrom, hnet]
      exact ⟨Nat.le_refl 1, Nat.le_add_left 1 _⟩
    | ok st loc e =>
      rw [checkUrlFrom, hnet]
      by_cases h1 : 200 ≤ st ∧ st < 300
      · simp only [if_pos h1]
        exact ⟨Nat.le_refl 1, Nat.le_add_left 1 _⟩
      · by_cases h2 : 300 ≤ st ∧ st < 400
        · by_cases h3 : loc.getD "" = ""
          · simp only [if_neg h1, if_pos h2, if_pos h3]
            exact ⟨Nat.le_refl 1, Nat.le_add_left 1 _⟩
          · by_cases h4 : urlScheme (urljoin url (loc.getD "")) ≠ s
            · simp only [if_neg h1, if_pos h2, if_neg h3, if_pos h4]
              exact ⟨Nat.le_refl 1, Nat.le_add_left 1 _⟩
            · simp only [if_neg h1, if_pos h2, if_neg h3, if_neg h4]
              exact ⟨Nat.le_add_left 1 _, Nat.add_le_add_right (ih (k + 1) _).2 1⟩
        · simp only [if_neg h1, if_neg h2]
          exact ⟨Nat.le_refl 1, Nat.le_add_left 1 _⟩

/-- Shape invariants of the loop's return value: the status code is absent
exactly when the response to the last request issued was a raised exception;
an absent status comes with an error message and no boundary flag; a crossed
boundary comes with no error and a status; a 2xx status comes with no
error. -/
lemma checkUrlFrom_inv (net : Nat → String → Bool → HopResponse)
    (t m : Nat) (vs : Bool) (s : String) :
    ∀ (fuel k : Nat) (url : String) (r : CheckResult) (n : Nat) (u : String),
      checkUrlFrom net t m vs s fuel k url = (r, n, u) →
      ((r.statusCode = none) ↔ isExc (net (k + n - 1) u (hop_verify u vs)) = true)
      ∧ (r.statusCode = none →
          r.errorMessage.isSome = true ∧ r.crossedSchemeBoundary = false)
      ∧ (r.crossedSchemeBoundary = true →
          r.errorMessage = none ∧ r.statusCode.isSome = true)
      ∧ (∀ st, r.statusCode = some st → 200 ≤ st → st < 300 →
          r.errorMessage = none) := by
  intro fuel
  induction fuel with
  | zero =>
    intro k url r n u heq
    cases hnet : net k url (hop_verify url vs) with
    | timeoutExc e =>
      rw [checkUrlFrom, hnet] at heq
      rw [Prod.mk.injEq, Prod.mk.injEq] at heq
      obtain ⟨hr, hn, hu⟩ := heq
      subst hr; subst hn; subst hu
      exact ⟨by simp [hnet, isExc], by simp, by simp, by simp⟩
    | requestExc msg e =>
      rw [checkUrlFrom, hnet] at heq
      rw [Prod.mk.injEq, Prod.mk.injEq] at heq
      obtain ⟨hr, hn, hu⟩ := heq
      subst hr; subst hn; subst hu
      exact ⟨by simp [hnet, isExc], by simp, by simp, by simp⟩
    | ok st loc e =>
      rw [checkUrlFrom, hnet] at heq
      by_cases h1 : 200 ≤ st ∧ st < 300
      · simp only [if_pos h1] at heq
        rw [Prod.mk.injEq, Prod.mk.injEq] at heq
        obtain ⟨hr, hn, hu⟩ := heq
        subst hr; subst hn; subst hu
        exact ⟨by simp [hnet, isExc], by simp, by simp, by simp⟩
      · by_cases h2 : 300 ≤ st ∧ st < 400
        · by_cases h3 : loc.getD "" = ""
          · simp only [if_neg h1, if_pos h2, if_pos h3] at heq
            rw [Prod.mk.injEq, Prod.mk.injEq] at heq
            obtain ⟨hr, hn, hu⟩ := heq
            subst hr; subst hn; subst hu
            refine ⟨by simp [hnet, isExc], by simp, by simp, ?_⟩
            intro st' hst' hle hlt
            exfalso
            simp at hst'
            omega
          · by_cases h4 : urlScheme (urljoin url (loc.getD "")) ≠ s
            · simp only [if_neg h1, if_pos h2, if_neg h3, if_pos h4] at heq
              rw [Prod.mk.injEq, Prod.mk.injEq] at heq
              obtain ⟨hr, hn, hu⟩ := heq
              subst hr; subst hn; subst hu
              exact ⟨by simp [hnet, isExc], by simp, by simp, by simp⟩
            · simp only [if_neg h1, if_pos h2, if_neg h3, if_neg h4] at heq
              rw [Prod.mk.injEq, Prod.mk.injEq] at heq
              obtain ⟨hr, hn, hu⟩ := heq
              subst hr; subst hn; subst hu
              refine ⟨by simp [hnet, isExc], by simp, by simp, ?_⟩
              intro st' hst' hle hlt
              exfalso
              simp at hst'
              omega
        · simp only [if_neg h1, if_neg h2] at heq
          rw [Prod.mk.injEq, Prod.mk.injEq] at heq
          obtain ⟨hr, hn, hu⟩ := heq
          subst hr; subst hn; subst hu
          refine ⟨by simp [hnet, isExc], by simp, by simp, ?_⟩
          intro st' hst' hle hlt
          exfalso
          simp at hst'
          omega
  | succ f ih =>
    intro k url r n u heq
    cases hnet : net k url (hop_verify url vs) with
    | timeoutExc e =>
      rw [checkUrlFrom, hnet] at heq
      rw [Prod.mk.injEq, Prod.mk.injEq] at heq
      obtain ⟨hr, hn, hu⟩ := heq
      subst hr; subst hn; subst hu
      exact ⟨by simp [hnet, isExc], by simp, by simp, by simp⟩
    | requestExc msg e =>
      rw [checkUrlFrom, hnet] at heq
      rw [Prod.mk.injEq, Prod.mk.injEq] at heq
      obtain ⟨hr, hn, hu⟩ := heq
      subst hr; subst hn; subst hu
      exact ⟨by simp [hnet, isExc], by simp, by simp, by simp⟩
    | ok st loc e =>
      rw [checkUrlFrom, hnet] at heq
      by_cases h1 : 200 ≤ st ∧ st < 300
      · simp only [if_pos h1] at heq
        rw [Prod.mk.injEq, Prod.mk.injEq] at heq
        obtain ⟨hr, hn, hu⟩ := heq
        subst hr; subst hn; subst hu
        exact ⟨by simp [hnet, isExc], by simp, by simp, by simp⟩
      · by_cases h2 : 300 ≤ st ∧ st < 400
        · by_cases h3 : loc.getD "" = ""
          · simp only [if_neg h1, if_pos h2, if_pos h3] at heq
            rw [Prod.mk.injEq, Prod.mk.injEq] at heq
            obtain ⟨hr, hn, hu⟩ := heq
            subst hr; subst hn; subst hu
            refine ⟨by simp [hnet, isExc], by simp, by simp, ?_⟩
            intro st' hst' hle hlt
            exfalso
            simp at hst'
            omega
          · by_cases h4 : urlScheme (urljoin url (loc.getD "")) ≠ s
            · simp only [if_neg h1, if_pos h2, if_neg h3, if_pos h4] at heq
              rw [Prod.mk.injEq, Prod.mk.injEq] at heq
              obtain ⟨hr, hn, hu⟩ := heq
              subst hr; subst hn; subst hu
              exact ⟨by simp [hnet, isExc], by simp, by simp, by simp⟩
            · simp only [if_neg h1, if_pos h2, if_neg h3, if_neg h4] at heq
              rw [Prod.mk.injEq, Prod.mk.injEq] at heq
              obtain ⟨hr, hn, hu⟩ := heq
              subst hr; subst hn; subst hu
              have h := ih (k + 1) (urljoin url (loc.getD ""))
                (checkUrlFrom net t m vs s f (k + 1) (urljoin url (loc.getD ""))).1
                (checkUrlFrom net t m vs s f (k + 1) (urljoin url (loc.getD ""))).2.1
                (checkUrlFrom net t m vs s f (k + 1) (urljoin url (loc.getD ""))).2.2 rfl
              have hidx :
                  k + ((checkUrlFrom net t m vs s f (k + 1) (urljoin url (loc.getD ""))).2.1 + 1) - 1
                    = (k + 1) + (checkUrlFrom net t m vs s f (k + 1) (urljoin url (loc.getD ""))).2.1 - 1 := by
                omega
              rw [hidx]
              exact h
        · simp only [if_neg h1, if_neg h2] at heq
          rw [Prod.mk.injEq, Prod.mk.injEq] at heq
          obtain ⟨hr, hn, hu⟩ := heq
          subst hr; subst hn; subst hu
          refine ⟨by simp [hnet, isExc], by simp, by simp, ?_⟩
          intro st' hst' hle hlt
          exfalso
          simp at hst'
          omega

/-- A successful `findSep` decomposes its input around `"://"`. -/
lemma findSep_eq_some :
    ∀ (cs pre rest : List Char), findSep cs = some (pre, rest) →
      cs = pre ++ ':' :: '/' :: '/' :: rest := by
  intro cs
  induction cs with
  | nil => intro pre rest h; exact absurd h (by simp [findSep])
  | cons c cs ih =>
    intro pre rest h
    rw [findSep] at h
    by_cases hc : c = ':' ∧ cs.take 2 = ['/', '/']
    · rw [if_pos hc] at h
      rw [Option.some_inj, Prod.mk.injEq] at h
      obtain ⟨hpre, hrest⟩ := h
      subst hpre; subst hrest
      rw [hc.1]
      simp only [List.nil_append]
      conv_lhs => rw [← List.take_append_drop 2 cs]
      rw [hc.2]
      rfl
    · rw [if_neg hc] at h
      rw [Option.map_eq_some'] at h
      obtain ⟨p, hp, hmk⟩ := h
      rw [Prod.mk.injEq] at hmk
      obtain ⟨hpre, hrest⟩ := hmk
      subst hpre; subst hrest
      rw [ih p.1 p.2 hp]
      rfl

/-- Evaluation of `findSep` on a list starting with `"https://"`: it splits right there. -/
lemma findSep_https (rest : List Char) :
    findSep ('h' :: 't' :: 't' :: 'p' :: 's' :: ':' :: '/' :: '/' :: rest) =
      some (['h', 't', 't', 'p', 's'], rest) := by
  simp [findSep, List.take]

/-- A URL's parsed scheme is `https` exactly when the URL literally starts
with `"https://"` — the form the source's per-hop verification test uses. -/
lemma urlScheme_https_iff (u : String) :
    urlScheme u = "https" ↔ py_startswith u "https://" = true := by
  constructor
  · intro h
    rw [urlScheme] at h
    cases hfs : findSep u.toList with
    | none => rw [hfs] at h; exact absurd h (by decide)
    | some p =>
      rw [hfs] at h
      have hdata := congrArg String.data h
      have hpre : p.1 = ['h', 't', 't', 'p', 's'] := hdata
      have hu := findSep_eq_some u.toList p.1 p.2 (by rw [hfs])
      rw [hpre] at hu
      rw [py_startswith, List.isPrefixOf_iff_prefix, hu]
      exact ⟨p.2, rfl⟩
  · intro h
    rw [py_startswith, List.isPrefixOf_iff_prefix] at h
    obtain ⟨t, ht⟩ := h
    rw [urlScheme]
    have ht' : u.toList = 'h' :: 't' :: 't' :: 'p' :: 's' :: ':' :: '/' :: '/' :: t := by
      rw [← ht]; rfl
    rw [ht', findSep_https]

/-! ## Claim theorems -/

/-- Claim C6: on every hop of the redirect loop the request's `verify`
argument is the global flag exactly when the current hop's URL scheme is
`https`; on any other hop the argument is `True` independently of the flag,
so an `http` hop is never verification-checked.  (The loop passes
`hop_verify currentUrl verifySsl` to every request it issues.) -/
theorem per_hop_verify_https_only (u : String) (vs : Bool) :
    (urlScheme u = "https" → hop_verify u vs = vs)
    ∧ (urlScheme u ≠ "https" → hop_verify u vs = true) := by
  constructor
  · intro h
    have hps : py_startswith u "https://" = true := (urlScheme_https_iff u).mp h
    simp [hop_verify, hps]
  · intro h
    have hps : py_startswith u "https://" = false := by
      cases hps : py_startswith u "https://"
      · rfl
      · exact absurd ((urlScheme_https_iff u).mpr hps) h
    simp [hop_verify, hps]

/-- Witness for C6 at concrete URLs of each scheme. -/
theorem per_hop_verify_https_only_witness :
    hop_verify "https://example.com/" false = false
    ∧ hop_verify "http://example.com/" false = true :=
  ⟨(per_hop_verify_https_only "https://example.com/" false).1 (by decide),
   (per_hop_verify_https_only "http://example.com/" false).2 (by decide)⟩

/-- Claim C9: for every network behaviour and every `maxRedirects`, the
redirect loop of `check_url` terminates (it is a total function here) and
issues between `1` and `maxRedirects + 1` GET requests. -/
theorem redirect_loop_request_bound (net : Nat → String → Bool → HopResponse)
    (url : String) (t m : Nat) (vs : Bool) :
    check_url net url t m vs = (checkUrlFrom net t m vs (urlScheme url) m 0 url).1
    ∧ 1 ≤ (checkUrlFrom net t m vs (urlScheme url) m 0 url).2.1
    ∧ (checkUrlFrom net t m vs (urlScheme url) m 0 url).2.1 ≤ m + 1 :=
  ⟨rfl, (checkUrlFrom_count net t m vs (urlScheme url) m 0 url).1,
    (checkUrlFrom_count net t m vs (urlScheme url) m 0 url).2⟩

/-- Claim C2: at any point of the loop — any redirect budget left, including
none — a redirect response whose resolved `Location` has a scheme different
from the initial scheme makes the prober stop and return that status code,
the next URL, no error and `crossedSchemeBoundary = true`; and the
orchestrator classifies any boundary-crossing prober result as a pass. -/
theorem scheme_boundary_pass :
    (∀ (net : Nat → String → Bool → HopResponse) (t m : Nat) (vs : Bool)
      (s : String) (fuel k : Nat) (url : String) (st : Nat) (loc : String) (e : ℚ),
      net k url (hop_verify url vs) = .ok st (some loc) e →
      300 ≤ st → st < 400 → loc ≠ "" →
      urlScheme (urljoin url loc) ≠ s →
      checkUrlFrom net t m vs s fuel k url =
        (⟨some st, urljoin url loc, e, none, true⟩, 1, url))
    ∧ (∀ (net : Nat → String → Bool → HopResponse) (url scheme : String)
      (t m : Nat) (vs : Bool),
      (check_url net (replaceScheme url scheme) t m vs).crossedSchemeBoundary = true →
      (run_availability_test net url scheme t m vs).error = none
      ∧ (run_availability_test net url scheme t m vs).failure_message = none
      ∧ junit_case_result (run_availability_test net url scheme t m vs) =
          .passed) := by
  constructor
  · intro net t m vs s fuel k url st loc e hnet h3 h4 hl hs
    exact checkUrlFrom_cross hnet h3 h4 hl hs
  · intro net url scheme t m vs h
    refine ⟨?_, ?_, ?_⟩ <;> simp [run_availability_test, junit_case_result, h]

/-- The network used in the C2 witness: every request is answered by a
redirect to a different-scheme URL. -/
def netC2 : Nat → String → Bool → HopResponse :=
  fun _ _ _ => .ok 301 (some "http://other.example/") 1

/-- Witness for C2: a cross-scheme redirect with `maxRedirects = 0` ends the
loop at once and the orchestrator's record has no error and passes. -/
theorem scheme_boundary_pass_witness :
    checkUrlFrom netC2 30 0 true "https" 0 0 "https://example.com" =
      (⟨some 301, urljoin "https://example.com" "http://other.example/", 1, none, true⟩,
        1, "https://example.com")
    ∧ junit_case_result (run_availability_test netC2 "https://example.com" "https" 30 0 true) =
        .passed :=
  ⟨scheme_boundary_pass.1 netC2 30 0 true "https" 0 0 "https://example.com" 301
      "http://other.example/" 1 (by decide) (by decide) (by decide) (by decide) (by decide),
   (scheme_boundary_pass.2 netC2 "https://example.com" "https" 30 0 true (by decide)).2.2⟩

/-- Claim C4: a redirect chain that stays within the initial scheme and
reaches a 2xx response after `k ≤ maxRedirects` redirects makes the prober
return that first 2xx status and the URL that produced it, with no error and
no boundary flag. -/
theorem redirect_chain_success (net : Nat → String → Bool → HopResponse)
    (t m : Nat) (vs : Bool) (urls : Nat → String) (sts : Nat → Nat)
    (locs : Nat → String) (els : Nat → ℚ) (k : Nat) (stF : Nat)
    (locF : Option String) (eF : ℚ)
    (hhop : ∀ i, i < k → net i (urls i) (hop_verify (urls i) vs) =
      .ok (sts i) (some (locs i)) (els i))
    (hst : ∀ i, i < k → 300 ≤ sts i ∧ sts i < 400)
    (hloc : ∀ i, i < k → locs i ≠ "")
    (hjoin : ∀ i, i < k → urljoin (urls i) (locs i) = urls (i + 1))
    (hscheme : ∀ i, i < k → urlScheme (urls (i + 1)) = urlScheme (urls 0))
    (hfin : net k (urls k) (hop_verify (urls k) vs) = .ok stF locF eF)
    (h2a : 200 ≤ stF) (h2b : stF < 300) (hkm : k ≤ m) :
    check_url net (urls 0) t m vs = ⟨some stF, urls k, eF, none, false⟩ := by
  rw [check_url]
  rw [checkUrlFrom_chain_success hhop hst hloc hjoin hscheme hfin h2a h2b k 0 m
    (by omega) hkm]

/-- The network used in the C4 witness: one same-scheme redirect, then 200. -/
def netC4 : Nat → String → Bool → HopResponse :=
  fun k _ _ =>
    if k = 0 then .ok 301 (some "https://b.example/") 1 else .ok 200 none 2

/-- The URL chain used in the C4 witness. -/
def urlsC4 : Nat → String :=
  fun i => if i = 0 then "https://a.example/" else "https://b.example/"

/-- Witness for C4: a one-hop same-scheme chain under `maxRedirects = 1`
returns the 2xx response of the second URL. -/
theorem redirect_chain_success_witness :
    check_url netC4 "https://a.example/" 30 1 true =
      ⟨some 200, "https://b.example/", 2, none, false⟩ :=
  redirect_chain_success netC4 30 1 true urlsC4 (fun _ => 301)
    (fun _ => "https://b.example/") (fun _ => 1) 1 200 none 2
    (by decide) (by decide) (by decide) (by decide) (by decide) (by decide)
    (by decide) (by decide) (by decide)

/-- Claim C10: for every run of the prober — writing `(r, n, u)` for the
result, the number of requests issued and the last URL requested — the status
code is absent exactly when the response to the last request was a raised
transport exception; an absent status comes with an error message and
`crossedSchemeBoundary = false`; and a crossed boundary or a 2xx status comes
with no error message. -/
theorem check_url_result_invariants (net : Nat → String → Bool → HopResponse)
    (url : String) (t m : Nat) (vs : Bool) (r : CheckResult) (n : Nat) (u : String)
    (heq : checkUrlFrom net t m vs (urlScheme url) m 0 url = (r, n, u)) :
    check_url net url t m vs = r
    ∧ ((r.statusCode = none) ↔ isExc (net (n - 1) u (hop_verify u vs)) = true)
    ∧ (r.statusCode = none →
        r.errorMessage.isSome = true ∧ r.crossedSchemeBoundary = false)
    ∧ (r.crossedSchemeBoundary = true →
        r.errorMessage = none ∧ r.statusCode.isSome = true)
    ∧ (∀ st, r.statusCode = some st → 200 ≤ st → st < 300 →
        r.errorMessage = none) := by
  have h := checkUrlFrom_inv net t m vs (urlScheme url) m 0 url r n u heq
  rw [Nat.zero_add] at h
  exact ⟨by rw [check_url, heq], h.1, h.2.1, h.2.2.1, h.2.2.2⟩

/-- The network used in the C10 witness: the single request times out. -/
def netC10 : Nat → String → Bool → HopResponse :=
  fun _ _ _ => .timeoutExc 2

/-- Witness for C10: a timed-out run has an error message, no boundary flag,
and its absent status is matched by the raised exception at its last hop. -/
theorem check_url_result_invariants_witness :
    (⟨none, "https://a.example/", 2, some "Request timed out after 5s", false⟩
      : CheckResult).errorMessage.isSome = true
    ∧ (⟨none, "https://a.example/", 2, some "Request timed out after 5s", false⟩
      : CheckResult).crossedSchemeBoundary = false := by
  have h := check_url_result_invariants netC10 "https://a.example/" 5 0 true
    ⟨none, "https://a.example/", 2, some "Request timed out after 5s", false⟩
    1 "https://a.example/" (by decide)
  exact h.2.2.1 rfl

/-- The network used in the C1 counterexample, no-boundary side: a single
200 response observed after 6 seconds. -/
def netC1a : Nat → String → Bool → HopResponse :=
  fun _ _ _ => .ok 200 none 6

/-- The network used in the C1 counterexample, boundary side: a cross-scheme
redirect observed after 6 seconds. -/
def netC1b : Nat → String → Bool → HopResponse :=
  fun _ _ _ => .ok 301 (some "http://example.com/") 6

/-- Counterexample to claim C1 as stated.  With a 5-second timeout and an
elapsed time of 6 seconds, (a) the orchestrator does not produce a `Fail`
outcome: `failure_message` stays empty and the report renders the record as
an `Error` titled `"Unexpected error"`; and (b) when a scheme boundary was
crossed the timeout budget is not even checked — the same elapsed time
yields a passing outcome. -/
theorem timeout_classification_counterexample :
    (run_availability_test netC1a "https://example.com" "https" 5 0 true).failure_message
      = none
    ∧ junit_case_result (run_availability_test netC1a "https://example.com" "https" 5 0 true)
      = .errorCase "Unexpected error" "Response time 6.000s exceeded timeout of 5s"
    ∧ (5 : ℚ) ≤ (check_url netC1b (replaceScheme "https://example.com" "https") 5 0
        true).elapsedSeconds
    ∧ (check_url netC1b (replaceScheme "https://example.com" "https") 5 0
        true).crossedSchemeBoundary = true
    ∧ junit_case_result (run_availability_test netC1b "https://example.com" "https" 5 0 true)
      = .passed := by
  refine ⟨?_, ?_, ?_, ?_, ?_⟩ <;> decide

/-- Claim C1 as amended: when no scheme boundary was crossed and the elapsed
time reaches the timeout, the orchestrator records `"Response time <t>s
exceeded timeout of <timeout>s"` in the record's `error` slot — rendered by
the report as an `Error` with message `"Unexpected error"` and that text, not
as a `Fail` — while a boundary-crossing result passes regardless of the
elapsed time. -/
theorem timeout_classification_amended (net : Nat → String → Bool → HopResponse)
    (url scheme : String) (t m : Nat) (vs : Bool) :
    ((check_url net (replaceScheme url scheme) t m vs).crossedSchemeBoundary = false →
      (t : ℚ) ≤ (check_url net (replaceScheme url scheme) t m vs).elapsedSeconds →
      (run_availability_test net url scheme t m vs).error =
        some ("Response time " ++
          format3 (check_url net (replaceScheme url scheme) t m vs).elapsedSeconds ++
          "s exceeded timeout of " ++ toString t ++ "s")
      ∧ (run_availability_test net url scheme t m vs).failure_message = none
      ∧ junit_case_result (run_availability_test net url scheme t m vs) =
          .errorCase "Unexpected error"
            ("Response time " ++
              format3 (check_url net (replaceScheme url scheme) t m vs).elapsedSeconds ++
              "s exceeded timeout of " ++ toString t ++ "s"))
    ∧ ((check_url net (replaceScheme url scheme) t m vs).crossedSchemeBoundary = true →
      (run_availability_test net url scheme t m vs).error = none
      ∧ (run_availability_test net url scheme t m vs).failure_message = none
      ∧ junit_case_result (run_availability_test net url scheme t m vs) = .passed) := by
  constructor
  · intro hcross htime
    refine ⟨?_, ?_, ?_⟩ <;>
      simp [run_availability_test, junit_case_result, hcross, htime]
  · intro hcross
    refine ⟨?_, ?_, ?_⟩ <;>
      simp [run_availability_test, junit_case_result, hcross]

/-- Witness for the amended C1 at the two concrete networks of the
counterexample. -/
theorem timeout_classification_amended_witness :
    (run_availability_test netC1a "https://example.com" "https" 5 0 true).error =
      some ("Response time " ++
        format3 (check_url netC1a (replaceScheme "https://example.com" "https") 5 0
          true).elapsedSeconds ++ "s exceeded timeout of " ++ toString 5 ++ "s")
    ∧ junit_case_result (run_availability_test netC1b "https://example.com" "https" 5 0 true)
      = .passed :=
  ⟨((timeout_classification_amended netC1a "https://example.com" "https" 5 0 true).1
      (by decide) (by decide)).1,
   ((timeout_classification_amended netC1b "https://example.com" "https" 5 0 true).2
      (by decide)).2.2⟩

/-- The network used in the C3 counterexample: one same-scheme redirect
observed after 6 seconds, against a 5-second timeout. -/
def netC3 : Nat → String → Bool → HopResponse :=
  fun _ _ _ => .ok 301 (some "https://a.example/next") 6

/-- Counterexample to claim C3 as stated: the prober does return the
redirect-limit error, but because the elapsed time also reached the timeout
the orchestrator produces no `Fail` — `failure_message` stays empty and the
record is rendered as an `Error` for the response-time violation. -/
theorem redirect_limit_counterexample :
    (check_url netC3 (replaceScheme "https://a.example/" "https") 5 0 true).errorMessage =
      some "Redirect limit reached (0); last status 301 at https://a.example/"
    ∧ (run_availability_test netC3 "https://a.example/" "https" 5 0 true).failure_message
      = none
    ∧ junit_case_result (run_availability_test netC3 "https://a.example/" "https" 5 0 true)
      = .errorCase "Unexpected error" "Response time 6.000s exceeded timeout of 5s" := by
  refine ⟨?_, ?_, ?_⟩ <;> decide

/-- Claim C3 as amended: a same-scheme redirect encountered once the number
of followed redirects has reached `maxRedirects` makes the prober return the
redirect status, the current (not next) URL and the limit message naming the
configured limit and that URL; and — provided the elapsed time stayed below
the timeout, which otherwise takes precedence as an `Error` — the
orchestrator classifies the outcome as `Fail` with that message as detail. -/
theorem redirect_limit_fail (net : Nat → String → Bool → HopResponse)
    (url scheme : String) (t m : Nat) (vs : Bool) (urls : Nat → String)
    (sts : Nat → Nat) (locs : Nat → String) (els : Nat → ℚ)
    (stF : Nat) (locF : String) (eF : ℚ)
    (hurls0 : urls 0 = replaceScheme url scheme)
    (hhop : ∀ i, i < m → net i (urls i) (hop_verify (urls i) vs) =
      .ok (sts i) (some (locs i)) (els i))
    (hst : ∀ i, i < m → 300 ≤ sts i ∧ sts i < 400)
    (hloc : ∀ i, i < m → locs i ≠ "")
    (hjoin : ∀ i, i < m → urljoin (urls i) (locs i) = urls (i + 1))
    (hscheme : ∀ i, i < m → urlScheme (urls (i + 1)) = urlScheme (urls 0))
    (hfin : net m (urls m) (hop_verify (urls m) vs) = .ok stF (some locF) eF)
    (h3 : 300 ≤ stF) (h4 : stF < 400) (hlF : locF ≠ "")
    (hsF : urlScheme (urljoin (urls m) locF) = urlScheme (urls 0))
    (htime : eF < (t : ℚ)) :
    check_url net (urls 0) t m vs =
      ⟨some stF, urls m, eF,
        some ("Redirect limit reached (" ++ toString m ++ "); last status " ++
          toString stF ++ " at " ++ urls m), false⟩
    ∧ (run_availability_test net url scheme t m vs).failure_message =
        some (scheme.toUpper ++ " availability check failed")
    ∧ (run_availability_test net url scheme t m vs).failure_text =
        some ("Redirect limit reached (" ++ toString m ++ "); last status " ++
          toString stF ++ " at " ++ urls m)
    ∧ (run_availability_test net url scheme t m vs).error = none
    ∧ junit_case_result (run_availability_test net url scheme t m vs) =
        .failureCase (scheme.toUpper ++ " availability check failed")
          (some ("Redirect limit reached (" ++ toString m ++ "); last status " ++
            toString stF ++ " at " ++ urls m)) := by
  have hcheck : check_url net (urls 0) t m vs =
      ⟨some stF, urls m, eF,
        some ("Redirect limit reached (" ++ toString m ++ "); last status " ++
          toString stF ++ " at " ++ urls m), false⟩ := by
    rw [check_url]
    rw [checkUrlFrom_chain_limit hhop hst hloc hjoin hscheme hfin h3 h4 hlF hsF m 0
      (by omega)]
  have hcheck' : check_url net (replaceScheme url scheme) t m vs =
      ⟨some stF, urls m, eF,
        some ("Redirect limit reached (" ++ toString m ++ "); last status " ++
          toString stF ++ " at " ++ urls m), false⟩ := by
    rw [← hurls0]; exact hcheck
  have hne : ("Redirect limit reached (" ++ toString m ++ "); last status " ++
      toString stF ++ " at " ++ urls m) ≠ "" := by
    apply append_ne_empty_left
    rw [String.length_append, String.length_append, String.length_append,
      String.length_append]
    have hh : 0 < ("Redirect limit reached (" : String).length := by decide
    omega
  have hne2 : (scheme.toUpper ++ " availability check failed") ≠ "" :=
    append_ne_empty_right _ _ (by decide)
  have hnotle : ¬((t : ℚ) ≤ eF) := not_le.mpr htime
  refine ⟨hcheck, ?_, ?_, ?_, ?_⟩ <;>
    simp [run_availability_test, junit_case_result, hcheck', hnotle, hne, hne2]

/-- The network used in the C3 witness: same-scheme relative redirects on
every request. -/
def netC3w : Nat → String → Bool → HopResponse :=
  fun k _ _ =>
    if k = 0 then .ok 302 (some "/x") 1 else .ok 302 (some "/y") 2

/-- The URL chain used in the C3 witness. -/
def urlsC3 : Nat → String :=
  fun i => if i = 0 then "https://a.example/" else "https://a.example/x"

/-- Witness for the amended C3: a chain of 302s under `maxRedirects = 1`
with elapsed time below the timeout yields a `Fail` with the limit detail. -/
theorem redirect_limit_fail_witness :
    (run_availability_test netC3w "https://a.example/" "https" 5 1 True).failure_message =
      some ("https".toUpper ++ " availability check failed")
    ∧ (run_availability_test netC3w "https://a.example/" "https" 5 1 True).failure_text =
      some ("Redirect limit reached (" ++ toString 1 ++ "); last status " ++
        toString 302 ++ " at " ++ urlsC3 1) := by
  have h := redirect_limit_fail netC3w "https://a.example/" "https" 5 1 True urlsC3
    (fun _ => 302) (fun i => if i = 0 then "/x" else "/y") (fun i => if i = 0 then 1 else 2)
    302 "/y" 2 (by decide) (by decide) (by decide) (by decide) (by decide) (by decide)
    (by decide) (by decide) (by decide) (by decide) (by decide) (by decide)
  exact ⟨h.2.1, h.2.2.1⟩

/-- Claim C5: for a URL whose hostname fails to resolve, the orchestrator
produces the failed DNS record followed by one skipped record (reason
`"Skipped due to DNS failure"`) per enabled scheme; the result list does not
depend on the network oracle, so no request is attempted. -/
theorem dns_failure_skips_checks (dns : String → Except String String)
    (dnsDur : ℚ) (net : Nat → String → Bool → HopResponse) (url : String)
    (config : Config) (h : String) (e : String)
    (hhost : urlHostname url = some h) (hdns : dns h = .error e) :
    run_tests_for_url dns dnsDur net url config =
      [run_dns_test dns dnsDur url] ++
        (if config.check_http then
          [skipped_test ("http_availability[" ++ url ++ "]") "Skipped due to DNS failure"]
        else []) ++
        (if config.check_https then
          [skipped_test ("https_availability[" ++ url ++ "]") "Skipped due to DNS failure"]
        else [])
    ∧ (run_dns_test dns dnsDur url).failure_message =
        some ("DNS resolution failed for " ++ h)
    ∧ (run_dns_test dns dnsDur url).failure_text = some e
    ∧ (run_dns_test dns dnsDur url).error = none
    ∧ (run_dns_test dns dnsDur url).skipped = false := by
  have hdnsRec : run_dns_test dns dnsDur url =
      { case_name := "dns_resolution[" ++ url ++ "]"
        duration := dnsDur
        error := none
        failure_message := some ("DNS resolution failed for " ++ h)
        failure_text := some e
        properties := [("url", some url), ("hostname", some h)]
        skipped := false
        skipped_message := ""
        stdout := "Resolving hostname: " ++ h ++ "\n"
        stderr := "DNS resolution failed: " ++ e ++ "\n" } := by
    rw [run_dns_test, hhost]
    simp [check_dns, hdns, pyOptStr]
  have hmsgne : ("DNS resolution failed for " ++ h) ≠ "" := by
    apply append_ne_empty_left
    decide
  refine ⟨?_, ?_, ?_, ?_, ?_⟩
  · rw [run_tests_for_url, hdnsRec]
    simp [hmsgne]
  · rw [hdnsRec]
  · rw [hdnsRec]
  · rw [hdnsRec]
  · rw [hdnsRec]

/-- The resolver used in the C5 witness: every lookup fails. -/
def dnsC5 : String → Except String String :=
  fun _ => .error "[Errno -2] Name or service not known"

/-- The configuration used in the C5 witness: both scheme checks enabled. -/
def configC5 : Config :=
  { urls := ["https://nx.example/path"]
    max_redirects := 0
    timeout := 30
    check_http := true
    check_https := true
    verify_ssl := true }

/-- Witness for C5: with both checks enabled and an unresolvable hostname the
run yields exactly the DNS failure and two skipped records, for any network. -/
theorem dns_failure_skips_checks_witness :
    run_tests_for_url dnsC5 1 netC2 "https://nx.example/path" configC5 =
      [run_dns_test dnsC5 1 "https://nx.example/path",
        skipped_test "http_availability[https://nx.example/path]" "Skipped due to DNS failure",
        skipped_test "https_availability[https://nx.example/path]" "Skipped due to DNS failure"]
    ∧ (run_dns_test dnsC5 1 "https://nx.example/path").failure_message =
        some ("DNS resolution failed for " ++ "nx.example") := by
  have h := dns_failure_skips_checks dnsC5 1 netC2 "https://nx.example/path" configC5
    "nx.example" "[Errno -2] Name or service not known" (by decide) rfl
  exact ⟨by rw [h.1]; decide, h.2.1⟩

/-- The resolver used in the C7 counterexample: resolution succeeds. -/
def dnsC7 : String → Except String String :=
  fun _ => .ok "93.184.216.34"

/-- Counterexample to claim C7 as stated: a skipped outcome carries no
properties at all — in particular no `verify_ssl` — and the DNS outcome's
properties are exactly `url` and `hostname`, again without `verify_ssl`. -/
theorem outcome_properties_counterexample :
    (skipped_test "http_availability[https://example.com]"
      "Skipped due to DNS failure").properties = []
    ∧ (run_dns_test dnsC7 1 "https://example.com").properties =
        [("url", some "https://example.com"), ("hostname", some "example.com")]
    ∧ "verify_ssl" ∉
        ((run_dns_test dnsC7 1 "https://example.com").properties.map Prod.fst) := by
  refine ⟨?_, ?_, ?_⟩ <;> decide

/-- Claim C7 as amended: each scheme-availability outcome records the
effective per-scheme `verify_ssl` value as its only property; the DNS outcome
records the original URL and the hostname (and nothing else); skipped
outcomes record no properties. -/
theorem outcome_properties_recorded (net : Nat → String → Bool → HopResponse)
    (url scheme : String) (t m : Nat) (vs : Bool)
    (dns : String → Except String String) (dur : ℚ) (c r : String) :
    (run_availability_test net url scheme t m vs).properties =
      [("verify_ssl", some (pyStr (if scheme = "https" then vs else true)))]
    ∧ (run_dns_test dns dur url).properties =
        [("url", some url), ("hostname", urlHostname url)]
    ∧ (skipped_test c r).properties = [] := by
  refine ⟨?_, ?_, ?_⟩
  · rw [run_availability_test]
    repeat' split
    all_goals rfl
  · rw [run_dns_test]
    split
    · rfl
    · rfl
  · rfl

/-- Claim C8, settled against the code: when the target-URL variable is
present but yields an empty list, the program short-circuits to exactly one
skipped record with reason `"No URL(s) configured"`, touching neither the
resolver nor the network; but when the variable is absent,
`os.environ.get("TEST_URLS")` returns `None` and `raw_urls.strip("[]")`
raises `AttributeError` before any outcome is produced. -/
theorem no_urls_behavior (env : String → Option String)
    (dns : String → Except String String) (dnsDur : ℚ)
    (net : Nat → String → Bool → HopResponse) :
    (env "TEST_URLS" = none →
      main_results env dns dnsDur net =
        .error "AttributeError: NoneType object has no attribute strip")
    ∧ (env "TEST_URLS" = some "" →
      env "TEST_MAX-REDIRECTS" = none →
      env "TEST_TIMEOUT" = none →
      main_results env dns dnsDur net =
        .ok [skipped_test "resource_availability" "No URL(s) configured"]) := by
  constructor
  · intro h
    have hp : parse_config env =
        Except.error "AttributeError: NoneType object has no attribute strip" := by
      rw [parse_config, h]
    rw [main_results, hp]
    rfl
  · intro h1 h2 h3
    rw [main_results, parse_config, h1, h2, h3]
    rfl

/-- The environment used in the C8 witness, absent-variable side. -/
def envC8a : String → Option String := fun _ => none

/-- The environment used in the C8 witness, empty-value side. -/
def envC8b : String → Option String :=
  fun k => if k = "TEST_URLS" then some "" else none

/-- The resolver used in the C8 witness. -/
def dnsC8 : String → Except String String := fun _ => .ok "1.2.3.4"

/-- Witness for C8: an unset `TEST_URLS` crashes the run before any outcome;
an empty `TEST_URLS` yields the single skipped record. -/
theorem no_urls_behavior_witness :
    main_results envC8a dnsC8 0 netC2 =
      .error "AttributeError: NoneType object has no attribute strip"
    ∧ main_results envC8b dnsC8 0 netC2 =
        .ok [skipped_test "resource_availability" "No URL(s) configured"] :=
  ⟨(no_urls_behavior envC8a dnsC8 0 netC2).1 rfl,
   (no_urls_behavior envC8b dnsC8 0 netC2).2 (by decide) (by decide) (by decide)⟩
